import Mathlib

/-!
Shallow embedding of the `cli_explain` repository: the help-text harvesters
(`get_help_text` / `get_man_page` in `src/cli_explainer.py`,
`get_cli_help` / `get_manpage` in `src/hello.py`) and the two interactive
drivers (`run_chat_interface` in `src/cli_explainer.py`, `chat` in
`src/hello.py`).

The subprocess layer is modelled by a `Spawner`, a function from the argv
list to a `SpawnOutcome`; each harvester returns its Python result together
with the list of argv lists it handed to the subprocess layer, so that the
number of spawned children per call is visible in the embedding.  A Python
exception that escapes a function is an `Except.error`.
-/

deriving instance DecidableEq for Except

namespace CliExplain

/-- Python `str.lower()` restricted to ASCII case mapping; the drivers only
compare lowered input against ASCII sentinels, where this agrees with
Python. -/
def pyLower (s : String) : String := ⟨s.data.map Char.toLower⟩

/-- Python `str.split()` whitespace test: space, tab, newline, carriage
return, vertical tab, form feed. -/
def pySpace (c : Char) : Bool :=
  c = ' ' || c = '\t' || c = '\n' || c = '\r' || c = '\x0b' || c = '\x0c'

/-- Worker for `pySplit`: walks the characters, accumulating the current
word (reversed); whitespace closes the current word, and empty words are
never emitted. -/
def pySplitAux : List Char → List Char → List String
  | [], acc => if acc.isEmpty then [] else [String.mk acc.reverse]
  | c :: cs, acc =>
    if pySpace c then
      if acc.isEmpty then pySplitAux cs []
      else String.mk acc.reverse :: pySplitAux cs []
    else pySplitAux cs (c :: acc)

/-- Python `str.split()` with no separator: split on runs of whitespace and
drop empty pieces. -/
def pySplit (s : String) : List String := pySplitAux s.data []

/-- Result of the operating system's attempt to spawn a child process with a
given argv list, as surfaced by `subprocess.run` / `subprocess.check_output`:
either the child ran to completion (return code, captured stdout, captured
stderr), or the executable was not found (`FileNotFoundError`), or the spawn
raised some other exception (`subprocess.run` can also raise e.g.
`PermissionError` when the resolved file is not executable, or `ValueError`
for an argument with an embedded NUL byte). -/
inductive SpawnOutcome where
  | completed (returncode : Int) (stdout stderr : String)
  | fileNotFound
  | otherError (msg : String)
deriving DecidableEq

/-- The subprocess layer: what spawning each argv list does. -/
abbrev Spawner := List String → SpawnOutcome

/-- `containsStr s t`: the string `t` occurs as a contiguous substring of
`s`. -/
def containsStr (s t : String) : Prop :=
  ∃ pre post, s.data = pre ++ t.data ++ post

/-- The spawn outcomes whose exception (if any) the harvesters catch:
everything except an exception class other than `FileNotFoundError` /
`CalledProcessError`. -/
def caughtOutcome : SpawnOutcome → Prop
  | .otherError _ => False
  | _ => True

/-! ## Harvesters of `src/cli_explainer.py` -/

/-- The argv list built by `get_help_text` (`src/cli_explainer.py` lines
36–39): the tool name, then the subcommand when it is provided and truthy
(a `None` or empty-string subcommand is skipped by `if subcommand:`), then
`"-h"`. -/
def build_help_command (cli_tool_name : String) (subcommand : Option String) :
    List String :=
  [cli_tool_name] ++
    (match subcommand with
      | none => []
      | some s => if s = "" then [] else [s]) ++ ["-h"]

/-- `get_help_text` of `src/cli_explainer.py` (lines 28–48).  Runs the built
argv with `capture_output=True, check=False`; on return code 0 returns the
captured stdout, otherwise returns `"Error: "` followed by the captured
stderr; a `FileNotFoundError` from the spawn becomes a not-found string
naming the tool.  Any other spawn exception is not caught and propagates
(`Except.error`).  The second component is the list of argv lists handed to
the subprocess layer. -/
def get_help_text (spawn : Spawner) (cli_tool_name : String)
    (subcommand : Option String) :
    Except String String × List (List String) :=
  let command := build_help_command cli_tool_name subcommand
  match spawn command with
  | .completed rc out err =>
      (if rc = 0 then .ok out else .ok ("Error: " ++ err), [command])
  | .fileNotFound =>
      (.ok ("Error: Command '" ++ cli_tool_name ++ "' not found."), [command])
  | .otherError e => (.error e, [command])

/-- `get_man_page` of `src/cli_explainer.py` (lines 51–67).  Runs
`["man", tool]` with `check=False`; return code 0 yields the captured
stdout, a non-zero return code yields `"Error getting man page: "` plus the
captured stderr, and a `FileNotFoundError` (no `man` binary) yields a fixed
message that does not mention the queried tool. -/
def get_man_page (spawn : Spawner) (cli_tool_name : String) :
    Except String String × List (List String) :=
  let command := ["man", cli_tool_name]
  match spawn command with
  | .completed rc out err =>
      (if rc = 0 then .ok out else .ok ("Error getting man page: " ++ err),
       [command])
  | .fileNotFound =>
      (.ok "Error: 'man' command not found.  Is it installed?", [command])
  | .otherError e => (.error e, [command])

/-! ## Harvesters of `src/hello.py` -/

/-- The argv list built by `get_cli_help` (`src/hello.py` line 69):
`[cli_tool_name] + command.split() + ['-h']` — the command string is split
on whitespace, so it can contribute zero, one, or several argv entries. -/
def build_cli_help_command (cli_tool_name command : String) : List String :=
  [cli_tool_name] ++ pySplit command ++ ["-h"]

/-- `get_cli_help` of `src/hello.py` (lines 61–75).  Runs the built argv with
`capture_output=True, check=False` and returns the captured stdout no matter
what the return code is (the `CalledProcessError` branch is unreachable with
`check=False`); a `FileNotFoundError` becomes a not-installed string naming
the tool.  Any other spawn exception propagates. -/
def get_cli_help (spawn : Spawner) (cli_tool_name command : String) :
    Except String String × List (List String) :=
  let argv := build_cli_help_command cli_tool_name command
  match spawn argv with
  | .completed _rc out _err => (.ok out, [argv])
  | .fileNotFound => (.ok (cli_tool_name ++ " is not installed."), [argv])
  | .otherError e => (.error e, [argv])

/-- The message of Python's `str(CalledProcessError)` for a command that
exited with a positive return code. -/
def calledProcessErrorMsg (cmd : List String) (rc : Int) : String :=
  "Command '[" ++
    String.intercalate ", " (cmd.map (fun s => "'" ++ s ++ "'")) ++
    "]' returned non-zero exit status " ++ toString rc ++ "."

/-- `get_manpage` of `src/hello.py` (lines 79–91).  Uses
`subprocess.check_output(['man', tool])`, so a non-zero return code raises
`CalledProcessError`, which is caught and rendered as a failure string; a
`FileNotFoundError` yields `"Manpage for <tool> not found."` — a message
that varies with the queried tool name. -/
def get_manpage (spawn : Spawner) (cli_tool_name : String) :
    Except String String × List (List String) :=
  let command := ["man", cli_tool_name]
  match spawn command with
  | .completed rc out _err =>
      (if rc = 0 then .ok out
       else .ok ("Failed to get manpage for " ++ cli_tool_name ++ ": " ++
                 calledProcessErrorMsg command rc),
       [command])
  | .fileNotFound =>
      (.ok ("Manpage for " ++ cli_tool_name ++ " not found."), [command])
  | .otherError e => (.error e, [command])

/-! ## Conversational driver of `src/cli_explainer.py` (`run_chat_interface`) -/

/-- The value `agent.run_sync` returns in `run_chat_interface`: the answer
text (`.data`, rendered in the explanation panel) and the messages that
`new_messages()` would contribute to the next call's history. -/
structure AgentResult where
  data : String
  newMessages : List String
deriving DecidableEq

/-- Outcome of one `agent.run_sync` call in `run_chat_interface`: a result,
or an exception escaping the call (caught by the outer
`except Exception`). -/
inductive AgentOutcome where
  | ok (res : AgentResult)
  | exc (msg : String)
deriving DecidableEq

/-- The external reasoning component as seen by `run_chat_interface`: given
the current tool name (the `CLIQuery` deps), the question, and the message
history, it produces an outcome. -/
abbrev CEOracle := String → String → List String → AgentOutcome

/-- Control state of `run_chat_interface`: at the tool-name prompt, at the
question prompt for a tool (carrying `prev_result`, the transcript handle —
`none` models Python's `prev_result = None`), or terminated. -/
inductive CEState where
  | awaitingTool
  | awaitingQuestion (tool : String) (prevResult : Option AgentResult)
  | done
deriving DecidableEq

/-- One unit of user input at a prompt: a line of text, or a
`KeyboardInterrupt` delivered at the prompt. -/
inductive DriverInput where
  | line (s : String)
  | interrupt
deriving DecidableEq

/-- `prev_result.new_messages() if prev_result else []`
(`src/cli_explainer.py` line 122). -/
def messageHistory : Option AgentResult → List String
  | none => []
  | some r => r.newMessages

/-- One step of `run_chat_interface` (`src/cli_explainer.py` lines 94–138):
consumes one prompt input in the given control state and returns the next
control state, the console messages printed (rich markup stripped), and the
number of `agent.run_sync` invocations made during the step.

- Tool-name prompt: `quit` (lowered) breaks the outer loop; any other line
  enters the question loop with `prev_result = None`.
- Question prompt: `quit` returns from the function, `switch` breaks to the
  tool-name prompt; any other line is submitted to `agent.run_sync` with the
  accumulated history — on success the result is stored and rendered, on an
  exception the inner `except KeyboardInterrupt` does not match, the outer
  `except Exception` prints the error, and the outer loop continues at the
  tool-name prompt.
- A `KeyboardInterrupt` at the question prompt is caught by the inner
  handler (prints "Switching tools...", breaks to the tool-name prompt); at
  the tool-name prompt by the outer handler (prints "Exiting...", breaks the
  loop). -/
def run_chat_interface_step (oracle : CEOracle) (st : CEState)
    (inp : DriverInput) : CEState × List String × Nat :=
  match st, inp with
  | .awaitingTool, .line toolName =>
      if pyLower toolName = "quit" then (.done, [], 0)
      else (.awaitingQuestion toolName none,
            ["Now asking questions about: " ++ toolName], 0)
  | .awaitingTool, .interrupt => (.done, ["Exiting..."], 0)
  | .awaitingQuestion tool prev, .line query =>
      if pyLower query = "quit" then (.done, [], 0)
      else if pyLower query = "switch" then (.awaitingTool, [], 0)
      else
        match oracle tool query (messageHistory prev) with
        | .ok res => (.awaitingQuestion tool (some res), [res.data], 1)
        | .exc e => (.awaitingTool, ["An error occurred: " ++ e], 1)
  | .awaitingQuestion _ _, .interrupt =>
      (.awaitingTool, ["Switching tools..."], 0)
  | .done, _ => (.done, [], 0)

/-! ## Conversational driver of `src/hello.py` (`chat`) -/

/-- Outcome of one `agent.run_sync` call in `hello.chat`: a result, an
`UnexpectedModelBehavior` (the only exception class the loop catches), or an
exception of any other class, which propagates out of `chat`. -/
inductive HelloOutcome where
  | ok (answer : String)
  | umb (msg : String)
  | otherExc (msg : String)
deriving DecidableEq

/-- Control state of `hello.chat`'s loop: running, exited normally, or
aborted by an uncaught exception. -/
inductive HelloState where
  | running
  | finished
  | crashed (msg : String)
deriving DecidableEq

/-- One step of the read loop of `chat` (`src/hello.py` lines 110–127):
consumes one prompt input and returns the next state, the printed messages
(the echo of an `UnexpectedModelBehavior` also appends the captured run
messages, elided here), and the number of `agent.run_sync` invocations.

- A line whose lowering is `exit`, `quit`, or `q` prints "Goodbye!" and
  breaks the loop.
- Any other line is submitted to `agent.run_sync` (with no history — `chat`
  keeps no transcript); `UnexpectedModelBehavior` is caught and echoed, any
  other exception propagates out of `chat`.
- A `KeyboardInterrupt` prints "Goodbye!" and breaks the loop. -/
def chat_step (oracle : String → HelloOutcome) (st : HelloState)
    (inp : DriverInput) : HelloState × List String × Nat :=
  match st, inp with
  | .running, .line question =>
      if pyLower question = "exit" ∨ pyLower question = "quit" ∨
          pyLower question = "q" then
        (.finished, ["Goodbye!"], 0)
      else
        match oracle question with
        | .ok answer => (.running, ["Answer: " ++ answer], 1)
        | .umb e => (.running, ["An error occurred: " ++ e], 1)
        | .otherExc e => (.crashed e, [], 1)
  | .running, .interrupt => (.finished, ["Goodbye!"], 0)
  | .finished, _ => (.finished, [], 0)
  | .crashed e, _ => (.crashed e, [], 0)

/-! ## Concrete subprocess layers and oracles used to instantiate the
theorems -/

/-- A subprocess layer on which every spawn raises `FileNotFoundError`. -/
def fnfSpawner : Spawner := fun _ => .fileNotFound

/-- A subprocess layer on which every child exits with status 1, empty
stdout, and stderr `"boom"`. -/
def failSpawner : Spawner := fun _ => .completed 1 "" "boom"

/-- A subprocess layer on which every child exits with status 0 and stdout
`"HELP"`. -/
def okSpawner : Spawner := fun _ => .completed 0 "HELP" ""

/-- A subprocess layer on which every spawn raises an exception that is not
a `FileNotFoundError` (as `subprocess.run` does, e.g., when the resolved
file is not executable). -/
def permSpawner : Spawner := fun _ => .otherError "PermissionError: Permission denied"

/-- A reasoning component that always answers `"ans"`. -/
def constOracle : CEOracle := fun _ _ _ => .ok (AgentResult.mk "ans" ["m1"])

/-- A reasoning component for `hello.chat` that always answers `"ans"`. -/
def constHelloOracle : String → HelloOutcome := fun _ => .ok "ans"

/-- `true` exactly when the harvester call produced a string result rather
than letting an exception escape. -/
def isStringResult : Except String String → Bool
  | .ok _ => true
  | .error _ => false

/-! ## Claims -/

/-- Claim C1, counterexample: `get_cli_help` run against a tool that is on
the path but exits with status 1 and stderr `"boom"` returns the captured
stdout (here the empty string), which does not include the captured
stderr — refuting the claim that each help-text harvester embeds stderr in
its result on a non-zero exit. -/
theorem get_cli_help_failure_discards_stderr :
    (get_cli_help failSpawner "git" "").1 = .ok "" ∧ ¬ containsStr "" "boom" := by
  refine ⟨by decide, ?_⟩
  rintro ⟨pre, post, h⟩
  simp [containsStr] at h

/-- Claim C1, amended: when the child exits with a non-zero status,
`get_help_text` (`src/cli_explainer.py`) returns `"Error: "` followed by the
captured stderr — a string including that stderr — while `get_cli_help`
(`src/hello.py`) returns the captured stdout and discards stderr. -/
theorem help_failure_stderr_policy (spawn : Spawner) (t : String)
    (sub : Option String) (c : String) (rc : Int) (out err : String)
    (hrc : rc ≠ 0)
    (h1 : spawn (build_help_command t sub) = .completed rc out err)
    (h2 : spawn (build_cli_help_command t c) = .completed rc out err) :
    (get_help_text spawn t sub).1 = .ok ("Error: " ++ err) ∧
    containsStr ("Error: " ++ err) err ∧
    (get_cli_help spawn t c).1 = .ok out := by
  refine ⟨?_, ⟨"Error: ".data, [], ?_⟩, ?_⟩
  · simp [get_help_text, h1, hrc]
  · simp [String.data_append]
  · simp [get_cli_help, h2]

/-- Witness for the amended C1 theorem at the concrete subprocess layer
`failSpawner` (exit status 1, stdout `""`, stderr `"boom"`). -/
theorem help_failure_stderr_policy_witness :
    (get_help_text failSpawner "git" none).1 = .ok ("Error: " ++ "boom") ∧
    containsStr ("Error: " ++ "boom") "boom" ∧
    (get_cli_help failSpawner "git" "").1 = .ok "" :=
  help_failure_stderr_policy failSpawner "git" none "" 1 "" "boom"
    (by decide) rfl rfl

/-- Claim C2, counterexample: on a subprocess layer whose spawn raises an
exception that is not a `FileNotFoundError` (as `subprocess.run` does for,
e.g., a non-executable file), `get_help_text`'s `except FileNotFoundError`
clause does not match and the exception propagates past the harvester
instead of being converted to a string — refuting the claim that every
failure path is converted to a string result for every input. -/
theorem uncaught_spawn_exception_escapes_harvester :
    (get_help_text permSpawner "tool" none).1
      = .error "PermissionError: Permission denied" ∧
    isStringResult (get_help_text permSpawner "tool" none).1 = false := by
  exact ⟨by decide, by decide⟩

/-- Claim C2, amended: each harvester returns a string whenever the spawn
either completes (any exit status) or raises `FileNotFoundError` — the only
exception classes its `except` clauses cover (`get_manpage` additionally
converts the `CalledProcessError` of a non-zero `check_output` exit); a
spawn exception of any other class is not caught and propagates. -/
theorem harvesters_return_string_on_caught_outcomes (spawn : Spawner)
    (t : String) (sub : Option String) (c : String)
    (h1 : caughtOutcome (spawn (build_help_command t sub)))
    (h2 : caughtOutcome (spawn (build_cli_help_command t c)))
    (h3 : caughtOutcome (spawn ["man", t])) :
    isStringResult (get_help_text spawn t sub).1 = true ∧
    isStringResult (get_cli_help spawn t c).1 = true ∧
    isStringResult (get_man_page spawn t).1 = true ∧
    isStringResult (get_manpage spawn t).1 = true := by
  refine ⟨?_, ?_, ?_, ?_⟩
  · rcases h : spawn (build_help_command t sub) with ⟨rc, out, err⟩ | _ | e
    · by_cases hrc : rc = 0 <;> simp [get_help_text, isStringResult, h, hrc]
    · simp [get_help_text, isStringResult, h]
    · rw [h] at h1; exact h1.elim
  · rcases h : spawn (build_cli_help_command t c) with ⟨rc, out, err⟩ | _ | e
    · simp [get_cli_help, isStringResult, h]
    · simp [get_cli_help, isStringResult, h]
    · rw [h] at h2; exact h2.elim
  · rcases h : spawn ["man", t] with ⟨rc, out, err⟩ | _ | e
    · by_cases hrc : rc = 0 <;> simp [get_man_page, isStringResult, h, hrc]
    · simp [get_man_page, isStringResult, h]
    · rw [h] at h3; exact h3.elim
  · rcases h : spawn ["man", t] with ⟨rc, out, err⟩ | _ | e
    · by_cases hrc : rc = 0 <;> simp [get_manpage, isStringResult, h, hrc]
    · simp [get_manpage, isStringResult, h]
    · rw [h] at h3; exact h3.elim

/-- Witness for the amended C2 theorem on the subprocess layer where every
spawn raises `FileNotFoundError`. -/
theorem harvesters_return_string_on_caught_outcomes_witness :
    isStringResult (get_help_text fnfSpawner "foo" none).1 = true ∧
    isStringResult (get_cli_help fnfSpawner "foo" "").1 = true ∧
    isStringResult (get_man_page fnfSpawner "foo").1 = true ∧
    isStringResult (get_manpage fnfSpawner "foo").1 = true :=
  harvesters_return_string_on_caught_outcomes fnfSpawner "foo" none ""
    trivial trivial trivial

/-- Claim C3, confirmed: when the spawn raises `FileNotFoundError` (the tool
is not on the search path), `get_help_text` returns
`"Error: Command '<tool>' not found."` and `get_cli_help` returns
`"<tool> is not installed."` — both ordinary string results (no exception)
containing the tool name. -/
theorem missing_tool_error_names_tool (spawn : Spawner) (t : String)
    (sub : Option String) (c : String)
    (h1 : spawn (build_help_command t sub) = .fileNotFound)
    (h2 : spawn (build_cli_help_command t c) = .fileNotFound) :
    (get_help_text spawn t sub).1
      = .ok ("Error: Command '" ++ t ++ "' not found.") ∧
    containsStr ("Error: Command '" ++ t ++ "' not found.") t ∧
    (get_cli_help spawn t c).1 = .ok (t ++ " is not installed.") ∧
    containsStr (t ++ " is not installed.") t := by
  refine ⟨?_, ⟨"Error: Command '".data, "' not found.".data, ?_⟩, ?_,
    ⟨[], " is not installed.".data, ?_⟩⟩
  · simp [get_help_text, h1]
  · simp [String.data_append]
  · simp [get_cli_help, h2]
  · simp [String.data_append]

/-- Witness for the C3 theorem at tool name `"foo"` on the all-missing
subprocess layer. -/
theorem missing_tool_error_names_tool_witness :
    (get_help_text fnfSpawner "foo" none).1
      = .ok ("Error: Command '" ++ "foo" ++ "' not found.") ∧
    containsStr ("Error: Command '" ++ "foo" ++ "' not found.") "foo" ∧
    (get_cli_help fnfSpawner "foo" "").1 = .ok ("foo" ++ " is not installed.") ∧
    containsStr ("foo" ++ " is not installed.") "foo" :=
  missing_tool_error_names_tool fnfSpawner "foo" none "" rfl rfl

/-- Claim C4, counterexample: in `run_chat_interface`'s question loop the
input `exit` is not a sentinel — it is submitted to the reasoning component
as a question (one `run_sync` invocation, answer rendered) and the loop
stays in the question state — refuting the claim that each of `quit`,
`exit`, `q` terminates the process in the driver's read loop. -/
theorem exit_not_a_sentinel_in_run_chat_interface :
    run_chat_interface_step constOracle (.awaitingQuestion "git" none)
        (.line "exit")
      = (.awaitingQuestion "git" (some (AgentResult.mk "ans" ["m1"])),
         ["ans"], 1) ∧
    (run_chat_interface_step constOracle (.awaitingQuestion "git" none)
        (.line "exit")).1 ≠ CEState.done := by
  exact ⟨by decide, by decide⟩

/-- Claim C4, amended: in `run_chat_interface` the only terminating sentinel
is `quit` (at either prompt) and `switch` at the question prompt returns to
the tool-name prompt; in `hello.chat` each of `exit`, `quit`, `q` terminates
the loop (and there is no `switch` sentinel or tool-name prompt). -/
theorem sentinel_handling_by_driver (oracle : CEOracle)
    (horacle : String → HelloOutcome) (tool : String)
    (prev : Option AgentResult) :
    (run_chat_interface_step oracle (.awaitingQuestion tool prev)
        (.line "quit")).1 = .done ∧
    (run_chat_interface_step oracle .awaitingTool (.line "quit")).1 = .done ∧
    (run_chat_interface_step oracle (.awaitingQuestion tool prev)
        (.line "switch")).1 = .awaitingTool ∧
    (chat_step horacle .running (.line "exit")).1 = .finished ∧
    (chat_step horacle .running (.line "quit")).1 = .finished ∧
    (chat_step horacle .running (.line "q")).1 = .finished := by
  exact ⟨rfl, rfl, rfl, rfl, rfl, rfl⟩

/-- Claim C5, counterexample: when spawning `man` raises
`FileNotFoundError`, `hello.py`'s `get_manpage` returns
`"Manpage for <tool> not found."` — a message that differs between queried
tool names — refuting the claim that both man-page harvesters return one
fixed, tool-independent "man not installed" string. -/
theorem get_manpage_missing_man_message_varies_with_tool :
    (get_manpage fnfSpawner "git").1 = .ok "Manpage for git not found." ∧
    (get_manpage fnfSpawner "git").1 ≠ (get_manpage fnfSpawner "tar").1 := by
  exact ⟨by decide, by decide⟩

/-- Claim C5, amended: when spawning `man` raises `FileNotFoundError`,
`get_man_page` (`src/cli_explainer.py`) returns the fixed, tool-independent
string `"Error: 'man' command not found.  Is it installed?"`, while
`get_manpage` (`src/hello.py`) returns `"Manpage for <tool> not found."`,
which varies with the queried tool name; neither raises. -/
theorem missing_man_binary_messages (spawn : Spawner) (t : String)
    (h : spawn ["man", t] = .fileNotFound) :
    (get_man_page spawn t).1
      = .ok "Error: 'man' command not found.  Is it installed?" ∧
    (get_manpage spawn t).1 = .ok ("Manpage for " ++ t ++ " not found.") := by
  constructor <;> simp [get_man_page, get_manpage, h]

/-- Witness for the amended C5 theorem at tool name `"git"` on the
all-missing subprocess layer. -/
theorem missing_man_binary_messages_witness :
    (get_man_page fnfSpawner "git").1
      = .ok "Error: 'man' command not found.  Is it installed?" ∧
    (get_manpage fnfSpawner "git").1
      = .ok ("Manpage for " ++ "git" ++ " not found.") :=
  missing_man_binary_messages fnfSpawner "git" rfl

/-- Claim C6, counterexample: `get_cli_help` splits its command string on
whitespace (`command.split()`), so for the subcommand string `"a b"` it
spawns the four-element argv `["git", "a", "b", "-h"]`, not the
three-element `[tool, subcommand, "-h"]` of the claim. -/
theorem get_cli_help_splits_command_into_several_argv_entries :
    (get_cli_help fnfSpawner "git" "a b").2 = [["git", "a", "b", "-h"]] ∧
    (["git", "a", "b", "-h"] : List String) ≠ ["git", "a b", "-h"] := by
  exact ⟨by decide, by decide⟩

/-- Claim C6, amended: `get_help_text` builds exactly
`[tool] ++ (the subcommand, when provided and non-empty) ++ ["-h"]` and on a
zero exit status returns the captured stdout verbatim; `get_cli_help` builds
`[tool] ++ (the whitespace-split words of the command string) ++ ["-h"]`
(so a multi-word command contributes several argv entries) and returns the
captured stdout regardless of exit status.  Each call hands exactly its one
built argv to the subprocess layer, with stdout and stderr captured. -/
theorem help_harvester_argv_and_stdout (spawn : Spawner) (t s c : String)
    (sub : Option String) (rc : Int) (out err out2 err2 : String)
    (hs : s ≠ "")
    (h0 : spawn (build_help_command t sub) = .completed 0 out err)
    (hc : spawn (build_cli_help_command t c) = .completed rc out2 err2) :
    build_help_command t none = [t, "-h"] ∧
    build_help_command t (some s) = [t, s, "-h"] ∧
    build_cli_help_command t c = [t] ++ pySplit c ++ ["-h"] ∧
    (get_help_text spawn t sub).2 = [build_help_command t sub] ∧
    (get_cli_help spawn t c).2 = [build_cli_help_command t c] ∧
    (get_help_text spawn t sub).1 = .ok out ∧
    (get_cli_help spawn t c).1 = .ok out2 := by
  refine ⟨?_, ?_, rfl, ?_, ?_, ?_, ?_⟩
  · simp [build_help_command]
  · simp [build_help_command, hs]
  · simp [get_help_text, h0]
  · simp [get_cli_help, hc]
  · simp [get_help_text, h0]
  · simp [get_cli_help, hc]

/-- Witness for the amended C6 theorem on the subprocess layer where every
child exits 0 with stdout `"HELP"`, at tool `"git"`, subcommand `"commit"`,
and command string `"a b"`. -/
theorem help_harvester_argv_and_stdout_witness :
    build_help_command "git" none = ["git", "-h"] ∧
    build_help_command "git" (some "commit") = ["git", "commit", "-h"] ∧
    build_cli_help_command "git" "a b" = ["git"] ++ pySplit "a b" ++ ["-h"] ∧
    (get_help_text okSpawner "git" none).2 = [build_help_command "git" none] ∧
    (get_cli_help okSpawner "git" "a b").2
      = [build_cli_help_command "git" "a b"] ∧
    (get_help_text okSpawner "git" none).1 = .ok "HELP" ∧
    (get_cli_help okSpawner "git" "a b").1 = .ok "HELP" :=
  help_harvester_argv_and_stdout okSpawner "git" "commit" "a b" none 0
    "HELP" "" "HELP" "" (by decide) rfl rfl

/-- Claim C7, confirmed: when `agent.run_sync` fails while answering a
question, `run_chat_interface` lets the exception reach the outer
`except Exception`, which prints a visible "An error occurred" message and
continues the loop at the tool-name prompt, and `hello.chat` catches the
`UnexpectedModelBehavior`, echoes a visible message, and continues the loop
at the question prompt — neither session crashes. -/
theorem reasoning_failure_reported_and_loop_continues (e tool : String)
    (prev : Option AgentResult) (q q2 : String)
    (hq1 : pyLower q ≠ "quit") (hq2 : pyLower q ≠ "switch")
    (hq3 : ¬(pyLower q2 = "exit" ∨ pyLower q2 = "quit" ∨ pyLower q2 = "q")) :
    run_chat_interface_step (fun _ _ _ => .exc e)
        (.awaitingQuestion tool prev) (.line q)
      = (.awaitingTool, ["An error occurred: " ++ e], 1) ∧
    chat_step (fun _ => .umb e) .running (.line q2)
      = (.running, ["An error occurred: " ++ e], 1) := by
  constructor
  · simp [run_chat_interface_step, hq1, hq2]
  · simp [chat_step, hq3]

/-- Witness for the C7 theorem at a concrete failure message and concrete
non-sentinel questions. -/
theorem reasoning_failure_reported_and_loop_continues_witness :
    run_chat_interface_step (fun _ _ _ => .exc "boom")
        (.awaitingQuestion "git" none) (.line "how")
      = (.awaitingTool, ["An error occurred: " ++ "boom"], 1) ∧
    chat_step (fun _ => .umb "boom") .running (.line "why")
      = (.running, ["An error occurred: " ++ "boom"], 1) :=
  reasoning_failure_reported_and_loop_continues "boom" "git" none "how" "why"
    (by decide) (by decide) (by decide)

/-- Claim C8, confirmed: the only transition of `run_chat_interface` from
the tool-name prompt into the question loop carries `prev_result = None`
(an empty transcript), and `switch` at the question prompt returns to the
tool-name prompt, discarding the transcript handle — so no question/answer
history crosses from one tool session into the next. -/
theorem question_loop_enters_with_empty_transcript (oracle : CEOracle)
    (inp : DriverInput) (tool : String) (prev : Option AgentResult)
    (tool2 : String) (prev2 : Option AgentResult)
    (h : (run_chat_interface_step oracle .awaitingTool inp).1
      = .awaitingQuestion tool prev) :
    prev = none ∧
    (run_chat_interface_step oracle (.awaitingQuestion tool2 prev2)
        (.line "switch")).1 = .awaitingTool := by
  constructor
  · cases inp with
    | line t =>
        by_cases hq : pyLower t = "quit"
        · simp [run_chat_interface_step, hq] at h
        · simp [run_chat_interface_step, hq] at h
          exact h.2.symm
    | interrupt => simp [run_chat_interface_step] at h
  · rfl

/-- Witness for the C8 theorem: entering the question loop for `"git"` and
switching away from a session that already holds a transcript. -/
theorem question_loop_enters_with_empty_transcript_witness :
    (none : Option AgentResult) = none ∧
    (run_chat_interface_step constOracle
        (.awaitingQuestion "tar" (some (AgentResult.mk "ans" ["m1"])))
        (.line "switch")).1 = .awaitingTool :=
  question_loop_enters_with_empty_transcript constOracle (.line "git") "git"
    none "tar" (some (AgentResult.mk "ans" ["m1"])) (by decide)

/-- Claim C9, confirmed: each harvester call hands exactly one argv to the
subprocess layer, whatever the outcome (success, non-zero exit, or
file-not-found) — no retry and no caching — and each non-sentinel question
causes exactly one `agent.run_sync` invocation in either driver, also when
that invocation fails.  (The `retries=3` passed to the `Agent` constructor
configures the external agent framework's model-retry behaviour, not the
harvester or driver code.) -/
theorem single_invocation_no_retry (spawn : Spawner) (t : String)
    (sub : Option String) (c : String) (oracle : CEOracle)
    (horacle : String → HelloOutcome) (tool : String)
    (prev : Option AgentResult) (q q2 : String)
    (hq1 : pyLower q ≠ "quit") (hq2 : pyLower q ≠ "switch")
    (hq3 : ¬(pyLower q2 = "exit" ∨ pyLower q2 = "quit" ∨ pyLower q2 = "q")) :
    (get_help_text spawn t sub).2.length = 1 ∧
    (get_cli_help spawn t c).2.length = 1 ∧
    (get_man_page spawn t).2.length = 1 ∧
    (get_manpage spawn t).2.length = 1 ∧
    (run_chat_interface_step oracle (.awaitingQuestion tool prev)
        (.line q)).2.2 = 1 ∧
    (chat_step horacle .running (.line q2)).2.2 = 1 := by
  refine ⟨?_, ?_, ?_, ?_, ?_, ?_⟩
  · rcases h : spawn (build_help_command t sub) with ⟨rc, out, err⟩ | _ | e <;>
      simp [get_help_text, h]
  · rcases h : spawn (build_cli_help_command t c) with ⟨rc, out, err⟩ | _ | e <;>
      simp [get_cli_help, h]
  · rcases h : spawn ["man", t] with ⟨rc, out, err⟩ | _ | e <;>
      simp [get_man_page, h]
  · rcases h : spawn ["man", t] with ⟨rc, out, err⟩ | _ | e <;>
      simp [get_manpage, h]
  · simp only [run_chat_interface_step, hq1, hq2, if_false]
    cases oracle tool q (messageHistory prev) <;> simp [hq1, hq2]
  · simp only [chat_step]
    cases horacle q2 <;> simp [hq3]

/-- Witness for the C9 theorem on concrete subprocess layers and oracles
with concrete non-sentinel questions. -/
theorem single_invocation_no_retry_witness :
    (get_help_text fnfSpawner "foo" none).2.length = 1 ∧
    (get_cli_help fnfSpawner "foo" "").2.length = 1 ∧
    (get_man_page fnfSpawner "foo").2.length = 1 ∧
    (get_manpage fnfSpawner "foo").2.length = 1 ∧
    (run_chat_interface_step constOracle (.awaitingQuestion "git" none)
        (.line "how")).2.2 = 1 ∧
    (chat_step constHelloOracle .running (.line "why")).2.2 = 1 :=
  single_invocation_no_retry fnfSpawner "foo" none "" constOracle
    constHelloOracle "git" none "how" "why" (by decide) (by decide) (by decide)

/-- Claim C10, confirmed: a `KeyboardInterrupt` at the question prompt of
`run_chat_interface` is caught by the inner handler and behaves like
`switch` (prints "Switching tools...", returns to the tool-name prompt, no
termination); at the tool-name prompt it is caught by the outer handler and
ends the loop with "Exiting..."; in `hello.chat` it ends the loop with the
normal "Goodbye!" farewell — in no case does it propagate as a crash. -/
theorem keyboard_interrupt_never_crashes_drivers (oracle : CEOracle)
    (horacle : String → HelloOutcome) (tool : String)
    (prev : Option AgentResult) :
    run_chat_interface_step oracle (.awaitingQuestion tool prev) .interrupt
      = (.awaitingTool, ["Switching tools..."], 0) ∧
    run_chat_interface_step oracle .awaitingTool .interrupt
      = (.done, ["Exiting..."], 0) ∧
    chat_step horacle .running .interrupt = (.finished, ["Goodbye!"], 0) := by
  exact ⟨rfl, rfl, rfl⟩

end CliExplain
